import Mathlib

/-!
Shallow embedding of the budget-model core of `src/il_budget_v2.py`
(Illinois Budget Calculator v2): dataset loading, (category, fund)
aggregation, the two adjustment dictionaries built by the UI loops, and
the recomputation of adjusted/original spending, revenue and deficit.

Amounts are modelled as rationals.  A pandas `NaN` cell is modelled as
`Option` `none`; pandas column/group sums skip `NaN` (default
`skipna=True`, `min_count=0`), which is modelled by summing
`Option.getD 0` over the rows.  Python dictionaries are modelled as
functions `String → Option ℚ` updated by the same loops the source runs;
`dict.get(k, d)` becomes `(m k).getD d`.  Ordering artifacts (pandas
sorts group keys, `unique()` keeps first occurrences, `List.dedup` keeps
last occurrences) do not affect any quantity below: all derived values
are sums over the groups or per-group fields.
-/

namespace ILBudget

/-- A cell of the `FY25 Act Approp` column before coercion: empty (`NaN`),
a numeric value (numbers and numeric strings, which `pd.to_numeric`
converts), or a value that fails numeric coercion. -/
inductive AmountCell
  | missing
  | numeric (q : ℚ)
  | nonNumeric
  deriving DecidableEq, Repr

/-- One raw row of `data/budget_data.xlsx`: the three columns the core
uses.  `none` in a string column models a `NaN` cell. -/
structure RawRow where
  cat : Option String
  fund : Option String
  approp : AmountCell
  deriving DecidableEq, Repr

/-- One cleaned row of `df` after `load_data`: `approp` is the
`FY25 Act Approp` column after `pd.to_numeric(·, errors='coerce')`
(`none` = `NaN`), `appropM` the derived `FY25 Act Approp (M)` column. -/
structure CleanRow where
  cat : String
  fund : String
  approp : Option ℚ
  appropM : Option ℚ
  deriving DecidableEq, Repr

/-- The list `revenue_fund_cats` (source lines 27-32). -/
def revenue_fund_cats : List String :=
  ["General Funds", "Highway Funds", "Special State Funds", "Federal Trust Funds"]

/-- Coercion `pd.to_numeric(·, errors='coerce')` on one cell: values that fail
coercion become `NaN` (`none`). -/
def toNumeric : AmountCell → Option ℚ
  | .numeric q => some q
  | _ => none

/-- Whether an amount cell is present (not `NaN`): non-numeric strings
are present, only an empty cell is `NaN`. -/
def AmountCell.present : AmountCell → Bool
  | .missing => false
  | _ => true

/-- The step `df.dropna(subset=['Fund Category Name', 'Fund Name', 'FY25 Act Approp'])`
(source line 19): drops rows where one of the three cells is `NaN`.  A
non-numeric amount string is not `NaN`, so it survives this step. -/
def dropIncomplete (rows : List RawRow) : List RawRow :=
  rows.filter fun r => r.cat.isSome && r.fund.isSome && r.approp.present

/-- Function `load_data` (source lines 17-22): dropna, then numeric coercion of the
amount column, then the millions column `FY25 Act Approp (M)` =
`FY25 Act Approp / 1_000_000`.  (`getD ""` only extracts the value that
`dropIncomplete` guarantees present.) -/
def load_data (rows : List RawRow) : List CleanRow :=
  (dropIncomplete rows).map fun r =>
    { cat := r.cat.getD ""
      fund := r.fund.getD ""
      approp := toNumeric r.approp
      appropM := (toNumeric r.approp).map fun q => q / 1000000 }

/-- One row of `grouped_df`: a (category, fund) group with the summed
`FY25 Act Approp (M)` value. -/
structure Agg where
  cat : String
  fund : String
  value : ℚ
  deriving DecidableEq, Repr

/-- The contribution of one cleaned row to a pandas sum over the
`FY25 Act Approp (M)` column: `NaN` is skipped, i.e. contributes 0. -/
def rowVal (r : CleanRow) : ℚ := r.appropM.getD 0

/-- The distinct (category, fund) keys of `df.groupby(['Fund Category
Name', 'Fund Name'])`. -/
def groupKeys (rows : List CleanRow) : List (String × String) :=
  ((rows.map fun r => (r.cat, r.fund))).dedup

/-- The summed `FY25 Act Approp (M)` of one (category, fund) group
(pandas `agg 'sum'` skips `NaN`). -/
def groupValue (rows : List CleanRow) (k : String × String) : ℚ :=
  ((rows.filter fun r => decide ((r.cat, r.fund) = k)).map rowVal).sum

/-- Table `grouped_df` (source lines 37-39): one row per (category, fund) pair
with the summed millions value. -/
def grouped_df (rows : List CleanRow) : List Agg :=
  (groupKeys rows).map fun k => { cat := k.1, fund := k.2, value := groupValue rows k }

/-- Value `total_appropriation = grouped_df['FY25 Act Approp (M)'].sum()`
(source line 41). -/
def total_appropriation (rows : List CleanRow) : ℚ :=
  ((grouped_df rows).map Agg.value).sum

/-- The `Category Total` column (source line 42): the summed value of the
rows of `grouped_df` in one category (`transform('sum')`). -/
def categoryTotal (rows : List CleanRow) (c : String) : ℚ :=
  (((grouped_df rows).filter fun a => decide (a.cat = c)).map Agg.value).sum

/-- The `Category % of Total` column (source line 43). -/
def categoryShare (rows : List CleanRow) (c : String) : ℚ :=
  categoryTotal rows c / total_appropriation rows * 100

/-- The `Fund % of Category` column (source line 44), for one row of
`grouped_df`. -/
def fundShare (rows : List CleanRow) (a : Agg) : ℚ :=
  a.value / categoryTotal rows a.cat * 100

/-- Expression `grouped_df['Fund Category Name'].unique()` (source line 104): the
distinct categories of the grouped data. -/
def datasetCategories (rows : List CleanRow) : List String :=
  ((grouped_df rows).map Agg.cat).dedup

/-- Expression `grouped_df[grouped_df['Fund Category Name'] == category]['Fund
Name'].unique()` (source lines 124, 163): the funds of one category. -/
def fundsOfCategory (rows : List CleanRow) (c : String) : List String :=
  (((grouped_df rows).filter fun a => decide (a.cat = c)).map Agg.fund).dedup

/-- A Python dict from names to percentages, as a lookup function. -/
def AdjMap : Type := String → Option ℚ

/-- The empty dict `{}` (source lines 91-92). -/
def emptyAdj : AdjMap := fun _ => none

/-- One loop `for category in cats: d[category] = input category`
(source lines 104-122 and 145-161, keeping only the dict writes). -/
def writeCats (input : String → ℚ) (cats : List String) (d : AdjMap) : AdjMap :=
  cats.foldl (fun d c => Function.update d c (some (input c))) d

/-- Dict `category_adjustments` as it stands after both tab loops ran: the
spending tab writes an entry per dataset category (line 122), then the
revenue tab overwrites the entry of each of the four revenue-generating
categories (line 161).  `spendCatIn`/`revCatIn` give the values of the
per-category number-input widgets of the two tabs. -/
def category_adjustments (rows : List CleanRow) (spendCatIn revCatIn : String → ℚ) :
    AdjMap :=
  writeCats revCatIn revenue_fund_cats
    (writeCats spendCatIn (datasetCategories rows) emptyAdj)

/-- The inner fund loop of one category (source lines 125-136, 164-175):
`if fund_pct != 0: fund_adjustments[fund] = fund_pct` — the dict is
keyed by fund name alone, and only nonzero values are written. -/
def writeFunds (input : String → String → ℚ) (c : String) (funds : List String)
    (d : AdjMap) : AdjMap :=
  funds.foldl (fun d f =>
    if input c f ≠ 0 then Function.update d f (some (input c f)) else d) d

/-- One tab's nested category/fund loop writing `fund_adjustments`. -/
def writeTab (input : String → String → ℚ) (rows : List CleanRow)
    (cats : List String) (d : AdjMap) : AdjMap :=
  cats.foldl (fun d c => writeFunds input c (fundsOfCategory rows c) d) d

/-- Dict `fund_adjustments` as it stands after both tab loops ran: the
spending tab iterates all dataset categories, the revenue tab then
iterates the four revenue-generating categories; each visit writes the
widget value keyed by fund name when it is nonzero.
`spendFundIn c f` / `revFundIn c f` give the per-fund widget values. -/
def fund_adjustments (rows : List CleanRow) (spendFundIn revFundIn : String → String → ℚ) :
    AdjMap :=
  writeTab revFundIn rows revenue_fund_cats
    (writeTab spendFundIn rows (datasetCategories rows) emptyAdj)

/-- Resolution `pct = fund_adjustments.get(fund_name, category_adjustments.get(fund_cat, 0))`
(source line 187). -/
def resolvePct (fa ca : AdjMap) (c f : String) : ℚ :=
  (fa f).getD ((ca c).getD 0)

/-- The recomputation loop (source lines 180-191): accumulates
`(adjusted_revenue, adjusted_spending)` over the rows of `grouped_df`,
adding `value * (1 + pct / 100)` to spending always and to revenue when
the category is revenue-generating. -/
def computeTotals (aggs : List Agg) (fa ca : AdjMap) : ℚ × ℚ :=
  aggs.foldl (fun acc a =>
    ((if a.cat ∈ revenue_fund_cats then
        acc.1 + a.value * (1 + resolvePct fa ca a.cat a.fund / 100)
      else acc.1),
     acc.2 + a.value * (1 + resolvePct fa ca a.cat a.fund / 100))) (0, 0)

/-- Total `adjusted_revenue` (source lines 180, 189-190). -/
def adjusted_revenue (aggs : List Agg) (fa ca : AdjMap) : ℚ :=
  (computeTotals aggs fa ca).1

/-- Total `adjusted_spending` (source lines 181, 191). -/
def adjusted_spending (aggs : List Agg) (fa ca : AdjMap) : ℚ :=
  (computeTotals aggs fa ca).2

/-- Total `original_revenue = df[df['Fund Category Name'].isin(revenue_fund_cats)]
['FY25 Act Approp (M)'].sum()` (source line 193). -/
def original_revenue (rows : List CleanRow) : ℚ :=
  ((rows.filter fun r => decide (r.cat ∈ revenue_fund_cats)).map rowVal).sum

/-- Total `original_spending = df['FY25 Act Approp (M)'].sum()` (source line 194). -/
def original_spending (rows : List CleanRow) : ℚ :=
  (rows.map rowVal).sum

/-- Value `original_deficit = original_revenue - original_spending` (source line 195). -/
def original_deficit (rows : List CleanRow) : ℚ :=
  original_revenue rows - original_spending rows

/-- Value `adjusted_deficit = adjusted_revenue - adjusted_spending` (source line 196). -/
def adjusted_deficit (aggs : List Agg) (fa ca : AdjMap) : ℚ :=
  adjusted_revenue aggs fa ca - adjusted_spending aggs fa ca

/-- The adjusted contribution `value * (1 + pct / 100)` of one row of
`grouped_df` (source lines 190-191). -/
def adjVal (fa ca : AdjMap) (a : Agg) : ℚ :=
  a.value * (1 + resolvePct fa ca a.cat a.fund / 100)

/-! Concrete datasets used to exercise the model: the two-category
scenario of the specification, a file with a non-numeric amount cell,
a file whose only row lacks an amount, and an aggregate pair sharing one
fund name across two categories. -/

/-- The specification's scenario dataset: category A = General Funds
(revenue-generating) with funds F1 = $100M and F2 = $200M, category
B = Debt Service Funds (non-revenue) with fund F3 = $50M. -/
def scenarioRaw : List RawRow :=
  [⟨some "General Funds", some "F1", .numeric 100000000⟩,
   ⟨some "General Funds", some "F2", .numeric 200000000⟩,
   ⟨some "Debt Service Funds", some "F3", .numeric 50000000⟩]

def scenarioRows : List CleanRow := load_data scenarioRaw

/-- Scenario adjustments: category A (General Funds) set to +10% on the
revenue tab, every other widget untouched. -/
def scenarioCatAdj : AdjMap :=
  category_adjustments scenarioRows (fun _ => 0)
    (fun c => if c = "General Funds" then (10 : ℚ) else 0)

/-- Scenario fund overrides, first step: no fund widget touched. -/
def scenarioFundAdjNone : AdjMap :=
  fund_adjustments scenarioRows (fun _ _ => 0) (fun _ _ => 0)

/-- Scenario fund overrides, second step: the revenue-tab widget of
(General Funds, F1) set to -20%, everything else untouched. -/
def scenarioFundAdjF1 : AdjMap :=
  fund_adjustments scenarioRows (fun _ _ => 0)
    (fun c' f' => if c' = "General Funds" ∧ f' = "F1" then (-20 : ℚ) else 0)

/-- A raw file whose single row has a non-numeric amount cell: it
survives `dropna` and fails `to_numeric` coercion. -/
def nonNumericRaw : List RawRow :=
  [⟨some "General Funds", some "Fund X", .nonNumeric⟩]

/-- A raw file whose single row has an empty amount cell: after loading,
the cleaned dataset is empty. -/
def allMissingRaw : List RawRow :=
  [⟨some "General Funds", some "Fund X", .missing⟩]

/-- Two aggregated rows in different categories sharing one fund name. -/
def sharedFundAggs : List Agg :=
  [⟨"General Funds", "Shared Fund", 100⟩, ⟨"Debt Service Funds", "Shared Fund", 50⟩]

/-- A fund-adjustment dict holding a nonzero override for that name. -/
def sharedFundAdj : AdjMap :=
  fun g => if g = "Shared Fund" then some 5 else none

end ILBudget

namespace ILBudget

/-! General lemmas: a sum over the distinct keys of a grouping equals the
sum over the underlying list, the recomputation loop as a pair of sums,
and lookup characterisations of the dictionary-building loops. -/

theorem sum_map_ite_eq {κ : Type} [DecidableEq κ] (a : κ) (x : ℚ) :
    ∀ keys : List κ, keys.Nodup → a ∈ keys →
      (keys.map fun k => if a = k then x else 0).sum = x := by
  intro keys
  induction keys with
  | nil => intro _ h; cases h
  | cons k ks ih =>
    intro hnd hmem
    have hnd' := List.nodup_cons.mp hnd
    rcases List.mem_cons.mp hmem with h | hmem'
    · subst h
      simp only [List.map_cons, List.sum_cons, if_pos rfl]
      have hz : (ks.map fun k' => if a = k' then x else 0).sum = 0 := by
        apply List.sum_eq_zero
        intro y hy
        rcases List.mem_map.mp hy with ⟨k', hk', rfl⟩
        have hne : a ≠ k' := fun h => hnd'.1 (h ▸ hk')
        simp [hne]
      rw [hz, add_zero]
      simp
    · have hne : a ≠ k := fun h => hnd'.1 (h ▸ hmem')
      simp only [List.map_cons, List.sum_cons, if_neg hne, zero_add]
      exact ih hnd'.2 hmem'

theorem sum_partition {α κ : Type} [DecidableEq κ] (key : α → κ) (v : α → ℚ) :
    ∀ (l : List α) (keys : List κ), keys.Nodup → (∀ a ∈ l, key a ∈ keys) →
      (keys.map fun k => ((l.filter fun a => decide (key a = k)).map v).sum).sum
        = (l.map v).sum := by
  intro l
  induction l with
  | nil => intro keys _ _; simp
  | cons r l ih =>
    intro keys hnd hcov
    have h1 : ∀ k, (((r :: l).filter fun a => decide (key a = k)).map v).sum
        = (if key r = k then v r else 0)
          + ((l.filter fun a => decide (key a = k)).map v).sum := by
      intro k
      by_cases h : key r = k <;> simp [List.filter_cons, h]
    calc (keys.map fun k => (((r :: l).filter fun a => decide (key a = k)).map v).sum).sum
        = (keys.map fun k => (if key r = k then v r else 0)
            + ((l.filter fun a => decide (key a = k)).map v).sum).sum := by
          rw [List.map_congr_left fun k _ => h1 k]
      _ = (keys.map fun k => if key r = k then v r else 0).sum
            + (keys.map fun k => ((l.filter fun a => decide (key a = k)).map v).sum).sum :=
          List.sum_map_add
      _ = v r + (l.map v).sum := by
          rw [sum_map_ite_eq (key r) (v r) keys hnd (hcov r (List.mem_cons_self r l)),
            ih keys hnd fun a ha => hcov a (List.mem_cons_of_mem r ha)]
      _ = ((r :: l).map v).sum := by simp

theorem sum_partition_sub {α κ : Type} [DecidableEq κ] (key : α → κ) (v : α → ℚ)
    (q : κ → Bool) (l : List α) (keys : List κ) (hnd : keys.Nodup)
    (hcov : ∀ a ∈ l, key a ∈ keys) :
    ((keys.filter q).map fun k => ((l.filter fun a => decide (key a = k)).map v).sum).sum
      = ((l.filter fun a => q (key a)).map v).sum := by
  have hnd' : (keys.filter q).Nodup := hnd.filter q
  have hcov' : ∀ a ∈ l.filter (fun a => q (key a)), key a ∈ keys.filter q := by
    intro a ha
    rw [List.mem_filter] at ha ⊢
    exact ⟨hcov a ha.1, ha.2⟩
  rw [← sum_partition key v (l.filter fun a => q (key a)) (keys.filter q) hnd' hcov']
  apply congrArg List.sum
  apply List.map_congr_left
  intro k hk
  rw [List.mem_filter] at hk
  apply congrArg List.sum
  apply congrArg (List.map v)
  rw [List.filter_filter]
  apply List.filter_congr
  intro a _
  by_cases h : key a = k
  · simp [h, hk.2]
  · simp [h]

/-- Any category-filtered sum over `grouped_df` equals the same filtered
sum over the cleaned rows: the groups partition the rows. -/
theorem grouped_catfilter_sum (rows : List CleanRow) (q : String → Bool) :
    (((grouped_df rows).filter fun a => q a.cat).map Agg.value).sum
      = ((rows.filter fun r => q r.cat).map rowVal).sum := by
  unfold grouped_df
  rw [List.filter_map, List.map_map]
  have e1 : ((fun a : Agg => q a.cat) ∘ fun k : String × String =>
      ({ cat := k.1, fund := k.2, value := groupValue rows k } : Agg)) = fun k => q k.1 := rfl
  have e2 : (Agg.value ∘ fun k : String × String =>
      ({ cat := k.1, fund := k.2, value := groupValue rows k } : Agg))
      = fun k => ((rows.filter fun a => decide ((a.cat, a.fund) = k)).map rowVal).sum := rfl
  rw [e1, e2]
  exact sum_partition_sub (fun r : CleanRow => (r.cat, r.fund)) rowVal
    (fun k => q k.1) rows (groupKeys rows) (List.nodup_dedup _)
    (fun a ha => List.mem_dedup.mpr (List.mem_map_of_mem _ ha))

/-- The grand total over `grouped_df` equals the plain row sum. -/
theorem grouped_sum_eq (rows : List CleanRow) :
    ((grouped_df rows).map Agg.value).sum = (rows.map rowVal).sum := by
  have h := grouped_catfilter_sum rows (fun _ => true)
  simpa using h

/-- Summing `Category Total` once per distinct category gives the grand
total. -/
theorem catTotal_sum_eq (rows : List CleanRow) :
    ((datasetCategories rows).map fun c => categoryTotal rows c).sum
      = total_appropriation rows := by
  unfold total_appropriation categoryTotal datasetCategories
  exact sum_partition Agg.cat Agg.value (grouped_df rows) (((grouped_df rows).map Agg.cat).dedup)
    (List.nodup_dedup _)
    (fun a ha => List.mem_dedup.mpr (List.mem_map_of_mem _ ha))

theorem computeTotals_loop (fa ca : AdjMap) :
    ∀ (aggs : List Agg) (acc : ℚ × ℚ),
      aggs.foldl (fun acc a =>
        ((if a.cat ∈ revenue_fund_cats then
            acc.1 + a.value * (1 + resolvePct fa ca a.cat a.fund / 100)
          else acc.1),
         acc.2 + a.value * (1 + resolvePct fa ca a.cat a.fund / 100))) acc
      = (acc.1 + ((aggs.filter fun a => decide (a.cat ∈ revenue_fund_cats)).map (adjVal fa ca)).sum,
         acc.2 + (aggs.map (adjVal fa ca)).sum) := by
  intro aggs
  induction aggs with
  | nil => intro acc; simp
  | cons a l ih =>
    intro acc
    rw [List.foldl_cons, ih]
    by_cases h : a.cat ∈ revenue_fund_cats
    · simp only [List.filter_cons, List.map_cons, List.sum_cons, h, if_true,
        decide_True, Prod.mk.injEq, adjVal]
      constructor <;> ring
    · simp only [List.filter_cons, List.map_cons, List.sum_cons, h, if_false,
        decide_False, Bool.false_eq_true, Prod.mk.injEq, adjVal]
      constructor <;> ring_nf

/-- The recomputation loop computes the filtered revenue sum and the full
spending sum of the adjusted contributions. -/
theorem computeTotals_eq (aggs : List Agg) (fa ca : AdjMap) :
    computeTotals aggs fa ca =
      (((aggs.filter fun a => decide (a.cat ∈ revenue_fund_cats)).map (adjVal fa ca)).sum,
       (aggs.map (adjVal fa ca)).sum) := by
  unfold computeTotals
  rw [computeTotals_loop]
  simp

theorem adjusted_revenue_eq (aggs : List Agg) (fa ca : AdjMap) :
    adjusted_revenue aggs fa ca
      = ((aggs.filter fun a => decide (a.cat ∈ revenue_fund_cats)).map (adjVal fa ca)).sum := by
  unfold adjusted_revenue
  rw [computeTotals_eq]

theorem adjusted_spending_eq (aggs : List Agg) (fa ca : AdjMap) :
    adjusted_spending aggs fa ca = (aggs.map (adjVal fa ca)).sum := by
  unfold adjusted_spending
  rw [computeTotals_eq]

theorem sum_map_filter_split {α : Type} (v : α → ℚ) (p : α → Bool) (l : List α) :
    (l.map v).sum = ((l.filter p).map v).sum + ((l.filter fun a => !(p a)).map v).sum := by
  induction l with
  | nil => simp
  | cons a l ih =>
    by_cases h : p a = true <;>
      simp only [List.filter_cons, List.map_cons, List.sum_cons, h, if_true, if_false,
        Bool.not_true, Bool.not_false, Bool.false_eq_true, Bool.true_eq_false, ih] <;> ring

/-- Lookup after one category-writing loop: a visited category holds the
widget value, anything else is untouched. -/
theorem writeCats_apply (input : String → ℚ) :
    ∀ (cats : List String) (d : AdjMap) (g : String),
      writeCats input cats d g = if g ∈ cats then some (input g) else d g := by
  intro cats
  induction cats with
  | nil => intro d g; simp [writeCats]
  | cons c cs ih =>
    intro d g
    rw [show writeCats input (c :: cs) d
        = writeCats input cs (Function.update d c (some (input c))) from rfl, ih]
    by_cases h : g ∈ cs
    · simp [h, List.mem_cons]
    · by_cases hg : g = c
      · subst hg
        simp [h, Function.update_apply]
      · simp [h, hg, Function.update_apply, List.mem_cons]

/-- Lookup after one fund-writing loop: a visited fund whose widget value
is nonzero holds that value, anything else is untouched. -/
theorem writeFunds_apply (input : String → String → ℚ) (c : String) :
    ∀ (funds : List String) (d : AdjMap) (g : String),
      writeFunds input c funds d g =
        if g ∈ funds ∧ input c g ≠ 0 then some (input c g) else d g := by
  intro funds
  induction funds with
  | nil => intro d g; simp [writeFunds]
  | cons f fs ih =>
    intro d g
    rw [show writeFunds input c (f :: fs) d
        = writeFunds input c fs
            (if input c f ≠ 0 then Function.update d f (some (input c f)) else d) from rfl, ih]
    by_cases hg : g ∈ fs ∧ input c g ≠ 0
    · rw [if_pos hg, if_pos ⟨List.mem_cons_of_mem f hg.1, hg.2⟩]
    · rw [if_neg hg]
      by_cases hf : g = f
      · subst hf
        by_cases hz : input c g ≠ 0
        · rw [if_pos hz, Function.update_apply, if_pos rfl,
            if_pos ⟨List.mem_cons_self g fs, hz⟩]
        · rw [if_neg hz, if_neg]
          intro hcon
          exact hz hcon.2
      · have hsplit : ¬ (g ∈ f :: fs ∧ input c g ≠ 0) := by
          intro hcon
          rcases List.mem_cons.mp hcon.1 with h | h
          · exact hf h
          · exact hg ⟨h, hcon.2⟩
        rw [if_neg hsplit]
        by_cases hz : input c f ≠ 0
        · rw [if_pos hz, Function.update_apply, if_neg hf]
        · rw [if_neg hz]

/-- A tab loop whose widget values are all zero writes nothing. -/
theorem writeTab_zero (rows : List CleanRow) :
    ∀ (cats : List String) (d : AdjMap),
      writeTab (fun _ _ => 0) rows cats d = d := by
  intro cats
  induction cats with
  | nil => intro d; rfl
  | cons c cs ih =>
    intro d
    rw [show writeTab (fun _ _ => (0 : ℚ)) rows (c :: cs) d
        = writeTab (fun _ _ => 0) rows cs
            (writeFunds (fun _ _ => 0) c (fundsOfCategory rows c) d) from rfl, ih]
    funext g
    rw [writeFunds_apply]
    simp

/-- A tab loop whose only nonzero widget is the one of `(c, f)` writes at
most the single entry `f ↦ x`, and writes it exactly when the loop visits
`(c, f)` and `x` is nonzero. -/
theorem writeTab_delta (rows : List CleanRow) (c f : String) (x : ℚ) :
    ∀ (cats : List String) (d : AdjMap) (g : String),
      writeTab (fun c' f' => if c' = c ∧ f' = f then x else 0) rows cats d g =
        if g = f ∧ c ∈ cats ∧ f ∈ fundsOfCategory rows c ∧ x ≠ 0 then some x
        else d g := by
  intro cats
  induction cats with
  | nil => intro d g; simp [writeTab]
  | cons c0 cs ih =>
    intro d g
    rw [show writeTab (fun c' f' => if c' = c ∧ f' = f then x else 0) rows (c0 :: cs) d
        = writeTab (fun c' f' => if c' = c ∧ f' = f then x else 0) rows cs
            (writeFunds (fun c' f' => if c' = c ∧ f' = f then x else 0) c0
              (fundsOfCategory rows c0) d) from rfl, ih, writeFunds_apply]
    by_cases hcs : g = f ∧ c ∈ cs ∧ f ∈ fundsOfCategory rows c ∧ x ≠ 0
    · rw [if_pos hcs, if_pos ⟨hcs.1, List.mem_cons_of_mem c0 hcs.2.1, hcs.2.2⟩]
    · rw [if_neg hcs]
      by_cases hq : g ∈ fundsOfCategory rows c0 ∧ (if c0 = c ∧ g = f then x else 0) ≠ 0
      · have hcnd : c0 = c ∧ g = f ∧ x ≠ 0 := by
          rcases hq with ⟨_, hnz⟩
          by_cases h : c0 = c ∧ g = f
          · exact ⟨h.1, h.2, by rwa [if_pos h] at hnz⟩
          · rw [if_neg h] at hnz
            exact absurd rfl hnz
        rw [if_pos hq, if_pos (⟨hcnd.1, hcnd.2.1⟩ : c0 = c ∧ g = f), if_pos
          (⟨hcnd.2.1, by rw [← hcnd.1]; exact List.mem_cons_self c0 cs,
            by rw [← hcnd.1, ← hcnd.2.1]; exact hq.1, hcnd.2.2⟩ :
            g = f ∧ c ∈ c0 :: cs ∧ f ∈ fundsOfCategory rows c ∧ x ≠ 0)]
      · rw [if_neg hq, if_neg]
        intro hcon
        rcases hcon with ⟨hgf, hmem, hfc, hx⟩
        rcases List.mem_cons.mp hmem with h | h
        · subst h
          exact hq ⟨by rw [hgf]; exact hfc, by rw [if_pos ⟨rfl, hgf⟩]; exact hx⟩
        · exact hcs ⟨hgf, h, hfc, hx⟩

/-- Every entry ever stored in `fund_adjustments` is nonzero: the loops
only write under the `fund_pct != 0` guard. -/
theorem writeFunds_nonzero (input : String → String → ℚ) (c : String)
    (funds : List String) (d : AdjMap)
    (hd : ∀ g p, d g = some p → p ≠ 0) :
    ∀ g p, writeFunds input c funds d g = some p → p ≠ 0 := by
  intro g p h
  rw [writeFunds_apply] at h
  by_cases hc : g ∈ funds ∧ input c g ≠ 0
  · rw [if_pos hc] at h
    cases h
    exact hc.2
  · rw [if_neg hc] at h
    exact hd g p h

theorem writeTab_nonzero (input : String → String → ℚ) (rows : List CleanRow) :
    ∀ (cats : List String) (d : AdjMap),
      (∀ g p, d g = some p → p ≠ 0) →
      ∀ g p, writeTab input rows cats d g = some p → p ≠ 0 := by
  intro cats
  induction cats with
  | nil => intro d hd; exact hd
  | cons c cs ih =>
    intro d hd
    exact ih _ (writeFunds_nonzero input c (fundsOfCategory rows c) d hd)

theorem fund_adjustments_nonzero (rows : List CleanRow)
    (spendFundIn revFundIn : String → String → ℚ) :
    ∀ g p, fund_adjustments rows spendFundIn revFundIn g = some p → p ≠ 0 := by
  unfold fund_adjustments
  apply writeTab_nonzero
  apply writeTab_nonzero
  intro g p h
  exact absurd h (by simp [emptyAdj])

/-- Lookup in `category_adjustments`: revenue-generating categories hold
the revenue-tab value (the later loop overwrote the spending-tab entry),
other dataset categories the spending-tab value. -/
theorem category_adjustments_apply (rows : List CleanRow)
    (spendCatIn revCatIn : String → ℚ) (c : String) :
    category_adjustments rows spendCatIn revCatIn c =
      if c ∈ revenue_fund_cats then some (revCatIn c)
      else if c ∈ datasetCategories rows then some (spendCatIn c)
      else none := by
  unfold category_adjustments
  rw [writeCats_apply, writeCats_apply]
  by_cases h : c ∈ revenue_fund_cats
  · rw [if_pos h, if_pos h]
  · rw [if_neg h, if_neg h]
    by_cases h2 : c ∈ datasetCategories rows
    · rw [if_pos h2, if_pos h2]
    · rw [if_neg h2, if_neg h2]
      rfl

/-- Dict `fund_adjustments` when the only touched fund widgets are the ones of
`(c, f)` in the two tabs, both set to `x`: the dict holds exactly the
entry `f ↦ x` when `x` is nonzero, and is empty when `x = 0`. -/
theorem fund_adjustments_delta (rows : List CleanRow) (c f : String) (x : ℚ)
    (hc : c ∈ datasetCategories rows) (hf : f ∈ fundsOfCategory rows c) :
    ∀ g, fund_adjustments rows
        (fun c' f' => if c' = c ∧ f' = f then x else 0)
        (fun c' f' => if c' = c ∧ f' = f then x else 0) g
      = if g = f ∧ x ≠ 0 then some x else none := by
  intro g
  unfold fund_adjustments
  rw [writeTab_delta, writeTab_delta]
  by_cases hrev : g = f ∧ c ∈ revenue_fund_cats ∧ f ∈ fundsOfCategory rows c ∧ x ≠ 0
  · rw [if_pos hrev, if_pos ⟨hrev.1, hrev.2.2.2⟩]
  · rw [if_neg hrev]
    by_cases hsp : g = f ∧ x ≠ 0
    · rw [if_pos ⟨hsp.1, hc, hf, hsp.2⟩, if_pos hsp]
    · rw [if_neg, if_neg hsp]
      · rfl
      · intro hcon
        exact hsp ⟨hcon.1, hcon.2.2.2⟩

/-! Evaluation of the scenario dataset. -/

theorem scenarioRows_eval : scenarioRows =
    [⟨"General Funds", "F1", some 100000000, some 100⟩,
     ⟨"General Funds", "F2", some 200000000, some 200⟩,
     ⟨"Debt Service Funds", "F3", some 50000000, some 50⟩] := by
  norm_num [scenarioRows, scenarioRaw, load_data, dropIncomplete, toNumeric,
    AmountCell.present]

theorem scenarioGrouped_eval : grouped_df scenarioRows =
    [⟨"General Funds", "F1", 100⟩, ⟨"General Funds", "F2", 200⟩,
     ⟨"Debt Service Funds", "F3", 50⟩] := by
  rw [grouped_df, groupKeys, scenarioRows_eval]
  norm_num
  simp [List.dedup_cons_of_not_mem]
  simp [groupValue, scenarioRows_eval, List.filter, rowVal]

theorem scenarioCats_eval :
    datasetCategories scenarioRows = ["General Funds", "Debt Service Funds"] := by
  rw [datasetCategories, scenarioGrouped_eval]
  simp [List.dedup_cons_of_not_mem, List.dedup_cons_of_mem]

theorem scenarioFundsGF_eval :
    fundsOfCategory scenarioRows "General Funds" = ["F1", "F2"] := by
  rw [fundsOfCategory, scenarioGrouped_eval]
  norm_num
  simp [List.dedup_cons_of_not_mem]

theorem scenarioCatAdj_eval (c : String) :
    scenarioCatAdj c =
      if c ∈ revenue_fund_cats then some (if c = "General Funds" then (10 : ℚ) else 0)
      else if c ∈ datasetCategories scenarioRows then some 0
      else none := by
  rw [scenarioCatAdj, category_adjustments_apply]

theorem scenarioFundAdjNone_eval : ∀ g, scenarioFundAdjNone g = none := by
  intro g
  rw [scenarioFundAdjNone, fund_adjustments, writeTab_zero, writeTab_zero]
  rfl

theorem scenarioFundAdjF1_eval (g : String) :
    scenarioFundAdjF1 g = if g = "F1" then some (-20 : ℚ) else none := by
  rw [scenarioFundAdjF1, fund_adjustments, writeTab_zero,
    writeTab_delta scenarioRows "General Funds" "F1" (-20) revenue_fund_cats emptyAdj g]
  by_cases h : g = "F1"
  · rw [if_pos h, if_pos]
    refine ⟨h, ?_, ?_, by norm_num⟩
    · simp [revenue_fund_cats]
    · rw [scenarioFundsGF_eval]
      simp
  · rw [if_neg h, if_neg]
    · rfl
    · intro hcon
      exact h hcon.1

/-! The claims. -/

/-- C1: the claim says the loader excludes every row whose appropriation
amount fails numeric coercion, so no coerced-to-missing amount reaches
the aggregation.  The code drops `NaN` rows before coercing, so a row
with a non-numeric amount string survives the drop, is coerced to `NaN`,
and is present in the collection handed to the aggregation: on
`nonNumericRaw` the loaded data contains a row whose amount is missing. -/
theorem C1_coerced_missing_reaches_aggregation :
    ∃ r ∈ load_data nonNumericRaw, r.approp = none ∧ r.appropM = none := by
  refine ⟨⟨"General Funds", "Fund X", none, none⟩, ?_, rfl, rfl⟩
  simp [load_data, nonNumericRaw, dropIncomplete, AmountCell.present, toNumeric]

/-- C3: recomputing with every adjustment resolving to 0% — in
particular with both adjustment maps empty, as after a reset, since
`resolvePct emptyAdj emptyAdj c f = 0` — reproduces the original
spending, revenue and deficit exactly: the grouped sums partition the
cleaned row sums. -/
theorem C3_zero_adjustments_reproduce_originals (rows : List CleanRow) (fa ca : AdjMap)
    (h : ∀ c f, resolvePct fa ca c f = 0) :
    adjusted_spending (grouped_df rows) fa ca = original_spending rows ∧
    adjusted_revenue (grouped_df rows) fa ca = original_revenue rows ∧
    adjusted_deficit (grouped_df rows) fa ca = original_deficit rows := by
  have hadj : ∀ a ∈ grouped_df rows, adjVal fa ca a = Agg.value a := by
    intro a _
    unfold adjVal
    rw [h]
    ring
  have hs : adjusted_spending (grouped_df rows) fa ca = original_spending rows := by
    rw [adjusted_spending_eq, List.map_congr_left hadj, grouped_sum_eq]
    rfl
  have hr : adjusted_revenue (grouped_df rows) fa ca = original_revenue rows := by
    rw [adjusted_revenue_eq]
    have hadj2 : ∀ a ∈ (grouped_df rows).filter fun a => decide (a.cat ∈ revenue_fund_cats),
        adjVal fa ca a = Agg.value a := fun a ha => hadj a (List.mem_filter.mp ha).1
    rw [List.map_congr_left hadj2]
    exact grouped_catfilter_sum rows fun s => decide (s ∈ revenue_fund_cats)
  refine ⟨hs, hr, ?_⟩
  unfold adjusted_deficit original_deficit
  rw [hs, hr]

/-- Witness for C3: on the scenario dataset with both adjustment maps
empty, the adjusted totals equal the original ones. -/
theorem C3_zero_adjustments_witness :
    adjusted_spending (grouped_df scenarioRows) emptyAdj emptyAdj = original_spending scenarioRows ∧
    adjusted_revenue (grouped_df scenarioRows) emptyAdj emptyAdj = original_revenue scenarioRows ∧
    adjusted_deficit (grouped_df scenarioRows) emptyAdj emptyAdj = original_deficit scenarioRows :=
  C3_zero_adjustments_reproduce_originals scenarioRows emptyAdj emptyAdj
    (fun _ _ => rfl)

/-- C5: a fund-level override is looked up by fund name alone, so a
nonzero registered override applies to both of two aggregated rows that
share a fund name while lying in different categories: both resolved
percentages equal the override and both adjusted contributions use it. -/
theorem C5_fund_override_by_name_only (aggs : List Agg) (fa ca : AdjMap)
    (a1 a2 : Agg) (f : String) (p : ℚ)
    (_h1 : a1 ∈ aggs) (_h2 : a2 ∈ aggs) (hf1 : a1.fund = f) (hf2 : a2.fund = f)
    (_hcat : a1.cat ≠ a2.cat) (hp : fa f = some p) (_hp0 : p ≠ 0) :
    resolvePct fa ca a1.cat f = p ∧ resolvePct fa ca a2.cat f = p ∧
    adjVal fa ca a1 = a1.value * (1 + p / 100) ∧
    adjVal fa ca a2 = a2.value * (1 + p / 100) := by
  have key : ∀ c, resolvePct fa ca c f = p := by
    intro c
    unfold resolvePct
    rw [hp]
    rfl
  refine ⟨key _, key _, ?_, ?_⟩
  · unfold adjVal
    rw [hf1, key]
  · unfold adjVal
    rw [hf2, key]

/-- Witness for C5: two aggregates in General Funds and Debt Service
Funds share the fund name Shared Fund; a +5% override registered under
that name resolves to +5% for both. -/
theorem C5_fund_override_witness :
    resolvePct sharedFundAdj emptyAdj (Agg.cat ⟨"General Funds", "Shared Fund", 100⟩) "Shared Fund" = 5 ∧
    resolvePct sharedFundAdj emptyAdj (Agg.cat ⟨"Debt Service Funds", "Shared Fund", 50⟩) "Shared Fund" = 5 ∧
    adjVal sharedFundAdj emptyAdj ⟨"General Funds", "Shared Fund", 100⟩
      = (Agg.value ⟨"General Funds", "Shared Fund", 100⟩) * (1 + 5 / 100) ∧
    adjVal sharedFundAdj emptyAdj ⟨"Debt Service Funds", "Shared Fund", 50⟩
      = (Agg.value ⟨"Debt Service Funds", "Shared Fund", 50⟩) * (1 + 5 / 100) :=
  C5_fund_override_by_name_only sharedFundAggs sharedFundAdj emptyAdj
    ⟨"General Funds", "Shared Fund", 100⟩ ⟨"Debt Service Funds", "Shared Fund", 50⟩
    "Shared Fund" 5
    (List.mem_cons_self _ _)
    (List.mem_cons_of_mem _ (List.mem_cons_self _ _))
    rfl rfl
    (by simp)
    (by simp [sharedFundAdj])
    (by norm_num)

/-- C8: for a category with nonzero `Category Total`, the `Fund % of
Category` entries of that category's rows of `grouped_df` sum to exactly
100. -/
theorem C8_fund_shares_sum_to_100 (rows : List CleanRow) (c : String)
    (h : categoryTotal rows c ≠ 0) :
    (((grouped_df rows).filter fun a => decide (a.cat = c)).map (fundShare rows)).sum = 100 := by
  have e : ((grouped_df rows).filter fun a => decide (a.cat = c)).map (fundShare rows)
      = ((grouped_df rows).filter fun a => decide (a.cat = c)).map
          (fun a => Agg.value a * (100 / categoryTotal rows c)) := by
    apply List.map_congr_left
    intro a ha
    have hac : a.cat = c := by
      have h2 := (List.mem_filter.mp ha).2
      simpa using h2
    unfold fundShare
    rw [hac]
    ring
  rw [e, List.sum_map_mul_right]
  have e2 : (((grouped_df rows).filter fun a => decide (a.cat = c)).map Agg.value).sum
      = categoryTotal rows c := rfl
  rw [e2]
  field_simp

/-- Witness for C8: in the scenario dataset, General Funds has total 300
and its two fund shares sum to 100. -/
theorem C8_fund_shares_witness :
    categoryTotal scenarioRows "General Funds" ≠ 0 ∧
    (((grouped_df scenarioRows).filter fun a => decide (a.cat = "General Funds")).map
      (fundShare scenarioRows)).sum = 100 :=
  have h : categoryTotal scenarioRows "General Funds" ≠ 0 := by
    rw [categoryTotal, scenarioGrouped_eval]
    simp [List.filter]
    norm_num
  ⟨h, C8_fund_shares_sum_to_100 scenarioRows "General Funds" h⟩

/-- C9, counterexample: the claim states the category shares sum to 100
for every loaded dataset, with no nonzero-grand-total guard.  On a file
whose single row has an empty amount cell the loaded dataset is empty:
there are no categories and the sum is 0, not 100. -/
theorem C9_counterexample_empty_dataset :
    ¬ ((datasetCategories (load_data allMissingRaw)).map
        (categoryShare (load_data allMissingRaw))).sum = 100 := by
  have e : load_data allMissingRaw = [] := by
    simp [load_data, allMissingRaw, dropIncomplete, AmountCell.present]
  rw [e]
  norm_num [datasetCategories, grouped_df, groupKeys]

/-- C9, amended: for every loaded dataset whose grand total is nonzero,
the `Category % of Total` values summed once per distinct category give
exactly 100. -/
theorem C9_category_shares_sum_to_100 (rows : List CleanRow)
    (h : total_appropriation rows ≠ 0) :
    ((datasetCategories rows).map (categoryShare rows)).sum = 100 := by
  have e : (datasetCategories rows).map (categoryShare rows)
      = (datasetCategories rows).map
          (fun c => categoryTotal rows c * (100 / total_appropriation rows)) := by
    apply List.map_congr_left
    intro c _
    unfold categoryShare
    ring
  rw [e, List.sum_map_mul_right, catTotal_sum_eq]
  field_simp

/-- Witness for C9 (amended): the scenario dataset has grand total 350
and its two category shares sum to 100. -/
theorem C9_category_shares_witness :
    total_appropriation scenarioRows ≠ 0 ∧
    ((datasetCategories scenarioRows).map (categoryShare scenarioRows)).sum = 100 :=
  have h : total_appropriation scenarioRows ≠ 0 := by
    rw [total_appropriation, scenarioGrouped_eval]
    norm_num
  ⟨h, C9_category_shares_sum_to_100 scenarioRows h⟩

/-- C10: the two deficits are exactly revenue minus spending, for any
input and any adjustments, and the sign convention is preserved: the
deficit is negative exactly when spending exceeds revenue. -/
theorem C10_deficit_identity (rows : List CleanRow) (aggs : List Agg) (fa ca : AdjMap) :
    original_deficit rows = original_revenue rows - original_spending rows ∧
    adjusted_deficit aggs fa ca = adjusted_revenue aggs fa ca - adjusted_spending aggs fa ca ∧
    (original_deficit rows < 0 ↔ original_revenue rows < original_spending rows) ∧
    (adjusted_deficit aggs fa ca < 0 ↔
      adjusted_revenue aggs fa ca < adjusted_spending aggs fa ca) :=
  ⟨rfl, rfl, sub_neg, sub_neg⟩

/-- C2: every entry stored in `fund_adjustments` is nonzero; when an
entry exists for `f` the resolved percentage is that entry regardless of
the category value, and when none exists it is the category value
(defaulting to 0).  In particular, for a user who sets the two fund
widgets of `(c, f)` to `x` and leaves every other fund widget at 0:
a nonzero `x` makes the resolved percentage `x`, and `x = 0` makes it
the category value again. -/
theorem C2_override_precedence (rows : List CleanRow)
    (spendCatIn revCatIn : String → ℚ) (c f : String) (x : ℚ)
    (hc : c ∈ datasetCategories rows) (hf : f ∈ fundsOfCategory rows c) :
    let fa := fund_adjustments rows
      (fun c' f' => if c' = c ∧ f' = f then x else 0)
      (fun c' f' => if c' = c ∧ f' = f then x else 0)
    let ca := category_adjustments rows spendCatIn revCatIn
    (∀ g p, fa g = some p → p ≠ 0) ∧
    (∀ (fa' : AdjMap) (p : ℚ), fa' f = some p → resolvePct fa' ca c f = p) ∧
    (∀ fa' : AdjMap, fa' f = none → resolvePct fa' ca c f = (ca c).getD 0) ∧
    (x ≠ 0 → resolvePct fa ca c f = x) ∧
    (x = 0 → resolvePct fa ca c f = (ca c).getD 0) := by
  intro fa ca
  refine ⟨fund_adjustments_nonzero rows _ _, ?_, ?_, ?_, ?_⟩
  · intro fa' p h
    unfold resolvePct
    rw [h]
    rfl
  · intro fa' h
    unfold resolvePct
    rw [h]
    rfl
  · intro hx
    have hfa : fa f = some x := by
      rw [show fa = fund_adjustments rows
          (fun c' f' => if c' = c ∧ f' = f then x else 0)
          (fun c' f' => if c' = c ∧ f' = f then x else 0) from rfl,
        fund_adjustments_delta rows c f x hc hf f, if_pos ⟨rfl, hx⟩]
    unfold resolvePct
    rw [hfa]
    rfl
  · intro hx
    have hfa : fa f = none := by
      rw [show fa = fund_adjustments rows
          (fun c' f' => if c' = c ∧ f' = f then x else 0)
          (fun c' f' => if c' = c ∧ f' = f then x else 0) from rfl,
        fund_adjustments_delta rows c f x hc hf f, if_neg]
      intro hcon
      exact hcon.2 hx
    unfold resolvePct
    rw [hfa]
    rfl

/-- Witness for C2: in the scenario dataset, the fund widgets of
(General Funds, F1) set to 7. -/
theorem C2_override_precedence_witness :
    let fa := fund_adjustments scenarioRows
      (fun c' f' => if c' = "General Funds" ∧ f' = "F1" then (7 : ℚ) else 0)
      (fun c' f' => if c' = "General Funds" ∧ f' = "F1" then (7 : ℚ) else 0)
    let ca := category_adjustments scenarioRows (fun _ => 0) (fun _ => 0)
    (∀ g p, fa g = some p → p ≠ 0) ∧
    (∀ (fa' : AdjMap) (p : ℚ), fa' "F1" = some p →
      resolvePct fa' ca "General Funds" "F1" = p) ∧
    (∀ fa' : AdjMap, fa' "F1" = none →
      resolvePct fa' ca "General Funds" "F1" = (ca "General Funds").getD 0) ∧
    ((7 : ℚ) ≠ 0 → resolvePct fa ca "General Funds" "F1" = 7) ∧
    ((7 : ℚ) = 0 → resolvePct fa ca "General Funds" "F1" = (ca "General Funds").getD 0) :=
  C2_override_precedence scenarioRows (fun _ => 0) (fun _ => 0) "General Funds" "F1" 7
    (by rw [scenarioCats_eval]; simp)
    (by rw [scenarioFundsGF_eval]; simp)

/-- C4: a revenue-generating category's entry in `category_adjustments`
is the revenue-tab value, because the revenue-tab loop runs after the
spending-tab loop and overwrites it; consequently the spending-tab
values of revenue-generating categories have no effect on the dict or on
any adjusted total. -/
theorem C4_revenue_tab_overwrites (rows : List CleanRow)
    (spendCatIn spendCatIn' revCatIn : String → ℚ)
    (spendFundIn revFundIn : String → String → ℚ) (c : String)
    (hc : c ∈ revenue_fund_cats)
    (hagree : ∀ c', c' ∉ revenue_fund_cats → spendCatIn c' = spendCatIn' c') :
    category_adjustments rows spendCatIn revCatIn c = some (revCatIn c) ∧
    category_adjustments rows spendCatIn revCatIn
      = category_adjustments rows spendCatIn' revCatIn ∧
    adjusted_spending (grouped_df rows) (fund_adjustments rows spendFundIn revFundIn)
        (category_adjustments rows spendCatIn revCatIn)
      = adjusted_spending (grouped_df rows) (fund_adjustments rows spendFundIn revFundIn)
        (category_adjustments rows spendCatIn' revCatIn) ∧
    adjusted_revenue (grouped_df rows) (fund_adjustments rows spendFundIn revFundIn)
        (category_adjustments rows spendCatIn revCatIn)
      = adjusted_revenue (grouped_df rows) (fund_adjustments rows spendFundIn revFundIn)
        (category_adjustments rows spendCatIn' revCatIn) ∧
    adjusted_deficit (grouped_df rows) (fund_adjustments rows spendFundIn revFundIn)
        (category_adjustments rows spendCatIn revCatIn)
      = adjusted_deficit (grouped_df rows) (fund_adjustments rows spendFundIn revFundIn)
        (category_adjustments rows spendCatIn' revCatIn) := by
  have h1 : category_adjustments rows spendCatIn revCatIn c = some (revCatIn c) := by
    rw [category_adjustments_apply, if_pos hc]
  have h2 : category_adjustments rows spendCatIn revCatIn
      = category_adjustments rows spendCatIn' revCatIn := by
    funext g
    rw [category_adjustments_apply, category_adjustments_apply]
    by_cases hg : g ∈ revenue_fund_cats
    · rw [if_pos hg, if_pos hg]
    · rw [if_neg hg, if_neg hg, hagree g hg]
  exact ⟨h1, h2, by rw [h2], by rw [h2], by rw [h2]⟩

/-- Witness for C4: in the scenario dataset, two spending-tab inputs
that differ only at General Funds (a revenue-generating category) give
identical dicts and totals, and the dict holds the revenue-tab value. -/
theorem C4_revenue_tab_overwrites_witness :
    category_adjustments scenarioRows (fun c => if c = "General Funds" then 1 else 0) (fun _ => 0)
        "General Funds" = some ((fun _ => (0 : ℚ)) "General Funds") ∧
    category_adjustments scenarioRows (fun c => if c = "General Funds" then 1 else 0) (fun _ => 0)
      = category_adjustments scenarioRows (fun c => if c = "General Funds" then 2 else 0) (fun _ => 0) ∧
    adjusted_spending (grouped_df scenarioRows)
        (fund_adjustments scenarioRows (fun _ _ => 0) (fun _ _ => 0))
        (category_adjustments scenarioRows (fun c => if c = "General Funds" then 1 else 0) (fun _ => 0))
      = adjusted_spending (grouped_df scenarioRows)
        (fund_adjustments scenarioRows (fun _ _ => 0) (fun _ _ => 0))
        (category_adjustments scenarioRows (fun c => if c = "General Funds" then 2 else 0) (fun _ => 0)) ∧
    adjusted_revenue (grouped_df scenarioRows)
        (fund_adjustments scenarioRows (fun _ _ => 0) (fun _ _ => 0))
        (category_adjustments scenarioRows (fun c => if c = "General Funds" then 1 else 0) (fun _ => 0))
      = adjusted_revenue (grouped_df scenarioRows)
        (fund_adjustments scenarioRows (fun _ _ => 0) (fun _ _ => 0))
        (category_adjustments scenarioRows (fun c => if c = "General Funds" then 2 else 0) (fun _ => 0)) ∧
    adjusted_deficit (grouped_df scenarioRows)
        (fund_adjustments scenarioRows (fun _ _ => 0) (fun _ _ => 0))
        (category_adjustments scenarioRows (fun c => if c = "General Funds" then 1 else 0) (fun _ => 0))
      = adjusted_deficit (grouped_df scenarioRows)
        (fund_adjustments scenarioRows (fun _ _ => 0) (fun _ _ => 0))
        (category_adjustments scenarioRows (fun c => if c = "General Funds" then 2 else 0) (fun _ => 0)) :=
  C4_revenue_tab_overwrites scenarioRows
    (fun c => if c = "General Funds" then 1 else 0)
    (fun c => if c = "General Funds" then 2 else 0)
    (fun _ => 0) (fun _ _ => 0) (fun _ _ => 0) "General Funds"
    (by simp [revenue_fund_cats])
    (by
      intro c' h
      have hne : c' ≠ "General Funds" := by
        intro e
        rw [e] at h
        exact h (by simp [revenue_fund_cats])
      simp [hne])

/-- C6: when every aggregated fund value is nonnegative and every
resolved percentage is at least -100, revenue never exceeds spending —
adjusted or original — so both deficits are at most 0: every
revenue-generating fund's contribution is also counted in spending. -/
theorem C6_no_surplus (rows : List CleanRow) (fa ca : AdjMap)
    (hv : ∀ a ∈ grouped_df rows, 0 ≤ a.value)
    (hp : ∀ c f, -100 ≤ resolvePct fa ca c f) :
    adjusted_revenue (grouped_df rows) fa ca ≤ adjusted_spending (grouped_df rows) fa ca ∧
    original_revenue rows ≤ original_spending rows ∧
    adjusted_deficit (grouped_df rows) fa ca ≤ 0 ∧
    original_deficit rows ≤ 0 := by
  have hval : ∀ a ∈ grouped_df rows, 0 ≤ adjVal fa ca a := by
    intro a ha
    unfold adjVal
    apply mul_nonneg (hv a ha)
    have := hp a.cat a.fund
    linarith
  have h1 : adjusted_revenue (grouped_df rows) fa ca
      ≤ adjusted_spending (grouped_df rows) fa ca := by
    rw [adjusted_revenue_eq, adjusted_spending_eq,
      sum_map_filter_split (adjVal fa ca)
        (fun a => decide (a.cat ∈ revenue_fund_cats)) (grouped_df rows)]
    have hnn : 0 ≤ (((grouped_df rows).filter fun a =>
        !(decide (a.cat ∈ revenue_fund_cats))).map (adjVal fa ca)).sum := by
      apply List.sum_nonneg
      intro y hy
      rcases List.mem_map.mp hy with ⟨a, ha, rfl⟩
      exact hval a (List.mem_filter.mp ha).1
    linarith
  have h2 : original_revenue rows ≤ original_spending rows := by
    have es : original_spending rows = ((grouped_df rows).map Agg.value).sum :=
      (grouped_sum_eq rows).symm
    have er : original_revenue rows
        = (((grouped_df rows).filter fun a =>
            decide (a.cat ∈ revenue_fund_cats)).map Agg.value).sum :=
      (grouped_catfilter_sum rows fun s => decide (s ∈ revenue_fund_cats)).symm
    rw [es, er, sum_map_filter_split Agg.value
      (fun a => decide (a.cat ∈ revenue_fund_cats)) (grouped_df rows)]
    have hnn : 0 ≤ (((grouped_df rows).filter fun a =>
        !(decide (a.cat ∈ revenue_fund_cats))).map Agg.value).sum := by
      apply List.sum_nonneg
      intro y hy
      rcases List.mem_map.mp hy with ⟨a, ha, rfl⟩
      exact hv a (List.mem_filter.mp ha).1
    linarith
  refine ⟨h1, h2, ?_, ?_⟩
  · unfold adjusted_deficit
    linarith
  · unfold original_deficit
    linarith

/-- Witness for C6: the scenario dataset with empty adjustment maps has
nonnegative aggregated values and resolved percentages 0, and indeed no
surplus. -/
theorem C6_no_surplus_witness :
    adjusted_revenue (grouped_df scenarioRows) emptyAdj emptyAdj
      ≤ adjusted_spending (grouped_df scenarioRows) emptyAdj emptyAdj ∧
    original_revenue scenarioRows ≤ original_spending scenarioRows ∧
    adjusted_deficit (grouped_df scenarioRows) emptyAdj emptyAdj ≤ 0 ∧
    original_deficit scenarioRows ≤ 0 :=
  C6_no_surplus scenarioRows emptyAdj emptyAdj
    (by
      rw [scenarioGrouped_eval]
      intro a ha
      simp only [List.mem_cons, List.not_mem_nil, or_false] at ha
      rcases ha with rfl | rfl | rfl <;> norm_num)
    (fun _ _ => by norm_num [resolvePct, emptyAdj])

/-- C7: the specification's scenario — category A = +10% gives adjusted
revenue 330, spending 380, deficit -50; additionally overriding F1 to
-20% (F2 stays at +10%) gives revenue 300, spending 350, deficit -50. -/
theorem C7_scenario_totals :
    adjusted_revenue (grouped_df scenarioRows) scenarioFundAdjNone scenarioCatAdj = 330 ∧
    adjusted_spending (grouped_df scenarioRows) scenarioFundAdjNone scenarioCatAdj = 380 ∧
    adjusted_deficit (grouped_df scenarioRows) scenarioFundAdjNone scenarioCatAdj = -50 ∧
    adjusted_revenue (grouped_df scenarioRows) scenarioFundAdjF1 scenarioCatAdj = 300 ∧
    adjusted_spending (grouped_df scenarioRows) scenarioFundAdjF1 scenarioCatAdj = 350 ∧
    adjusted_deficit (grouped_df scenarioRows) scenarioFundAdjF1 scenarioCatAdj = -50 := by
  have h0 : computeTotals (grouped_df scenarioRows) scenarioFundAdjNone scenarioCatAdj
      = (330, 380) := by
    rw [scenarioGrouped_eval]
    simp [computeTotals, resolvePct, scenarioFundAdjNone_eval, scenarioCatAdj_eval,
      scenarioCats_eval, revenue_fund_cats]
    norm_num
  have h1 : computeTotals (grouped_df scenarioRows) scenarioFundAdjF1 scenarioCatAdj
      = (300, 350) := by
    rw [scenarioGrouped_eval]
    simp [computeTotals, resolvePct, scenarioFundAdjF1_eval, scenarioCatAdj_eval,
      scenarioCats_eval, revenue_fund_cats]
    norm_num
  refine ⟨?_, ?_, ?_, ?_, ?_, ?_⟩ <;>
    simp [adjusted_revenue, adjusted_spending, adjusted_deficit, h0, h1] <;>
    norm_num

end ILBudget
